import Mathlib

/-!
Shallow embedding of the NewsFeedCard fetch/cache/fallback orchestrator
(`fetchNews` / `handleLoadMore`).

The component state is `ViewState` (`articles`, `loading`, `fetchingMore`,
`error`).  The cache store (`localStorage`, one slot per language under a
fixed key prefix) is modelled as a map from the language to an optional
`CacheData`: `CacheData.corrupt` stands for a stored string that
`JSON.parse` rejects, `CacheData.payload` for a parseable
`{timestamp, articles}` object.

The external world reaching one `fetchNews` run is an `Env`: the value of
`Date.now()`, the outcome of the remote generate-content call (raw text on
success, the error's string form on failure), and the behaviour of the
external `JSON.parse` on the sliced array substring (`jsonDecode`).
-/

namespace NewsFeed

inductive Language
  | en
  | zh
deriving DecidableEq

structure RawArticle where
  title : String
  summary : String
  category : String
  sourceUrl : String
deriving DecidableEq

structure Article where
  id : Int
  title : String
  summary : String
  category : String
  sourceUrl : String
deriving DecidableEq

inductive CacheData
  | corrupt
  | payload (timestamp : Int) (articles : List Article)
deriving DecidableEq

abbrev Store := Language → Option CacheData

structure ViewState where
  articles : List Article
  loading : Bool
  fetchingMore : Bool
  error : Option String
deriving DecidableEq

inductive FetchOutcome
  | success (text : String)
  | failure (errString : String)
deriving DecidableEq

structure Env where
  now : Int
  outcome : FetchOutcome
  jsonDecode : String → Option (List RawArticle)

/-- `CACHE_DURATION = 15 * 60 * 1000` (15 minutes in milliseconds). -/
def CACHE_DURATION : Int := 15 * 60 * 1000

def cacheRemove (store : Store) (lang : Language) : Store :=
  fun l => if l = lang then none else store l

def cacheSet (store : Store) (lang : Language) (v : CacheData) : Store :=
  fun l => if l = lang then some v else store l

/-- JS `hay.includes(needle)`: substring containment. -/
def containsSub (hay needle : String) : Bool :=
  hay.data.tails.any (fun t => needle.data.isPrefixOf t)

/-- `errString.includes('429') || errString.includes('RESOURCE_EXHAUSTED')`. -/
def isRateLimitError (errString : String) : Bool :=
  containsSub errString "429" || containsSub errString "RESOURCE_EXHAUSTED"

def genericRefreshMsg : String := "Failed to fetch news. Please try again later."

def rateLimitRefreshMsg : String :=
  "News service is temporarily unavailable due to high demand. Showing older articles if available."

def rateLimitLoadMoreMsg : String := "Could not load more articles due to high demand."

def genericLoadMoreMsg : String := "Could not load more articles."

/-- The `userMessage` chosen in the outer catch block (lines 101-107). -/
def userMessage (errString : String) : String :=
  if isRateLimitError errString then rateLimitRefreshMsg else genericRefreshMsg

def noArrayMsg : String := "No valid JSON array found in the model\x27s response."

def parseFailMsg : String := "Failed to parse news data."

/-- JS `String.prototype.trim`: drop whitespace from both ends. -/
def trimChars (s : List Char) : List Char :=
  ((s.dropWhile Char.isWhitespace).reverse.dropWhile Char.isWhitespace).reverse

/-- JS `indexOf(c)`, with `none` in place of `-1`. -/
def firstIdxOf (s : List Char) (c : Char) : Option Nat :=
  s.findIdx? (fun x => x = c)

/-- JS `lastIndexOf(c)`, with `none` in place of `-1`. -/
def lastIdxOf (s : List Char) (c : Char) : Option Nat :=
  (s.reverse.findIdx? (fun x => x = c)).map (fun r => s.length - 1 - r)

inductive InnerParseResult
  | ok (articlesData : List RawArticle)
  | noArrayError
  | decodeError
deriving DecidableEq

/-- The body of the inner `try` around the bracket extraction (lines 64-75):
trim the response text, locate the first `[` and the last `]`, throw the
"no valid JSON array" error when either is missing or out of order, else
slice the substring and hand it to `JSON.parse`. -/
def innerParse (jsonDecode : String → Option (List RawArticle)) (text : String) :
    InnerParseResult :=
  let responseText := trimChars text.data
  match firstIdxOf responseText '[', lastIdxOf responseText ']' with
  | some startIndex, some endIndex =>
    if endIndex < startIndex then InnerParseResult.noArrayError
    else
      match jsonDecode (String.mk ((responseText.drop startIndex).take (endIndex + 1 - startIndex))) with
      | some articlesData => InnerParseResult.ok articlesData
      | none => InnerParseResult.decodeError
  | _, _ => InnerParseResult.noArrayError

/-- The inner `catch (parseError)` (lines 76-79) converts every failure of
the inner try body, including the thrown "no valid JSON array" error, into
a new thrown error "Failed to parse news data.". -/
def parseNewsText (jsonDecode : String → Option (List RawArticle)) (text : String) :
    Except String (List RawArticle) :=
  match innerParse jsonDecode text with
  | InnerParseResult.ok articlesData => Except.ok articlesData
  | _ => Except.error parseFailMsg

/-- `articlesData.map((article, index) => ({ ...article, id: Date.now() + index }))`. -/
def assignIds (now : Int) (articlesData : List RawArticle) : List Article :=
  articlesData.mapIdx (fun index article =>
    { id := now + index, title := article.title, summary := article.summary,
      category := article.category, sourceUrl := article.sourceUrl })

/-- The hardcoded two-article fallback used when a refresh fails with no
usable cache (lines 124-127). -/
def fallbackArticles : List Article :=
  [{ id := 1, category := "Business", title := "HKMA maintains base rate at 5.75 percent",
     summary := "The Hong Kong Monetary Authority (HKMA) on Thursday maintained its base rate at 5.75 percent. This decision comes after the US Federal Reserve kept its key interest rate unchanged amid ongoing inflation concerns. The HKMA\x27s move was widely expected by economists, who predict that local borrowing costs will remain elevated for the foreseeable future. This stability is crucial for maintaining the Hong Kong dollar\x27s peg to the US dollar. Businesses are closely watching these developments, as higher interest rates can impact investment and consumer spending across the city.",
     sourceUrl := "#" },
   { id := 2, category := "Community", title := "HK Community Ball raises funds for charity",
     summary := "The annual Hong Kong Community Ball was held last Saturday, raising over HK$5 million for local charities supporting underprivileged children and the elderly. The event, a highlight of the city\x27s social calendar, was attended by numerous business leaders and philanthropists. An auction featuring unique experiences and luxury items was a major contributor to the funds raised. Organizers expressed their gratitude for the community\x27s generosity, emphasizing the significant impact these funds will have on improving the lives of vulnerable groups in Hong Kong, especially in the post-pandemic recovery period.",
     sourceUrl := "#" }]

/-- The outer `catch (err)` block (lines 99-130): classify the error by its
string form, pick the user-facing message; on refresh re-read the cache and
adopt a non-empty parseable payload, else fall back to the hardcoded
articles; on load-more only set the short error message. -/
def catchBlock (isRefresh : Bool) (lang : Language) (errString : String)
    (vs : ViewState) (store : Store) : ViewState × Store :=
  let isRateLimit := isRateLimitError errString
  if isRefresh then
    match store lang with
    | some (CacheData.payload _ cachedArticles) =>
      if cachedArticles.length > 0 then
        ({ vs with articles := cachedArticles, error := some (userMessage errString) }, store)
      else
        ({ vs with error := some (userMessage errString), articles := fallbackArticles }, store)
    | _ =>
      ({ vs with error := some (userMessage errString), articles := fallbackArticles }, store)
  else
    ({ vs with error := some (if isRateLimit then rateLimitLoadMoreMsg else genericLoadMoreMsg) }, store)

/-- The success tail of the try block (lines 86-97): replace or append the
freshly parsed batch and rewrite the cache payload with `timestamp = now`. -/
def successBlock (isRefresh : Bool) (lang : Language) (now : Int)
    (articlesData : List RawArticle) (vs : ViewState) (store : Store) :
    ViewState × Store :=
  let newArticlesWithIds := assignIds now articlesData
  if isRefresh then
    ({ vs with articles := newArticlesWithIds },
     cacheSet store lang (CacheData.payload now newArticlesWithIds))
  else
    let allArticles := vs.articles ++ newArticlesWithIds
    ({ vs with articles := allArticles },
     cacheSet store lang (CacheData.payload now allArticles))

/-- `setError(null)` then the try/catch (lines 44-130): run the remote
query; on a response, parse it (a parse failure throws an error whose
string form is `"Error: " ++ parseFailMsg`); route any thrown error to the
catch block. -/
def attemptFetch (isRefresh : Bool) (lang : Language) (env : Env)
    (vs : ViewState) (store : Store) : ViewState × Store :=
  let vs1 := { vs with error := none }
  match env.outcome with
  | FetchOutcome.success text =>
    match parseNewsText env.jsonDecode text with
    | Except.ok articlesData => successBlock isRefresh lang env.now articlesData vs1 store
    | Except.error msg => catchBlock isRefresh lang ("Error: " ++ msg) vs1 store
  | FetchOutcome.failure errString => catchBlock isRefresh lang errString vs1 store

/-- The `finally` block (lines 131-134). -/
def finallyBlock (isRefresh : Bool) (vs : ViewState) : ViewState :=
  if isRefresh then { vs with loading := false } else { vs with fetchingMore := false }

structure FetchResult where
  vs : ViewState
  store : Store
  queried : Bool

/-- `fetchNews(isRefresh)` (lines 20-135).  `queried` records whether the
remote generate-content call was issued.  On refresh: read the cache slot;
a corrupt entry is removed, a fresh non-empty payload short-circuits the
whole call (no remote query, `finally` never runs because `loading` was
already cleared); otherwise fetch.  On load-more: set `fetchingMore` and
fetch. -/
def fetchNews (isRefresh : Bool) (lang : Language) (env : Env)
    (vs : ViewState) (store : Store) : FetchResult :=
  if isRefresh then
    let vs1 := { vs with loading := true }
    match store lang with
    | some (CacheData.payload timestamp cachedArticles) =>
      if env.now - timestamp < CACHE_DURATION ∧ cachedArticles.length > 0 then
        ⟨{ vs1 with articles := cachedArticles, loading := false, error := none },
         store, false⟩
      else
        let r := attemptFetch true lang env vs1 store
        ⟨finallyBlock true r.1, r.2, true⟩
    | some CacheData.corrupt =>
      let store1 := cacheRemove store lang
      let r := attemptFetch true lang env vs1 store1
      ⟨finallyBlock true r.1, r.2, true⟩
    | none =>
      let r := attemptFetch true lang env vs1 store
      ⟨finallyBlock true r.1, r.2, true⟩
  else
    let vs1 := { vs with fetchingMore := true }
    let r := attemptFetch false lang env vs1 store
    ⟨finallyBlock false r.1, r.2, true⟩

/-- `handleLoadMore` (lines 141-145): guarded by the `fetchingMore` flag. -/
def handleLoadMore (lang : Language) (env : Env) (vs : ViewState)
    (store : Store) : FetchResult :=
  if vs.fetchingMore then ⟨vs, store, false⟩
  else fetchNews false lang env vs store

/-- The error string observed by the outer catch, when the run fails:
either the remote call rejected, or it resolved but parsing threw. -/
def envFailure (env : Env) : Option String :=
  match env.outcome with
  | FetchOutcome.failure errString => some errString
  | FetchOutcome.success text =>
    match parseNewsText env.jsonDecode text with
    | Except.error msg => some ("Error: " ++ msg)
    | Except.ok _ => none

/-- The parsed batch, when the remote call resolved and parsing succeeded. -/
def envParsed (env : Env) : Option (List RawArticle) :=
  match env.outcome with
  | FetchOutcome.success text =>
    match parseNewsText env.jsonDecode text with
    | Except.ok articlesData => some articlesData
    | Except.error _ => none
  | FetchOutcome.failure _ => none

/-- The condition under which the catch block adopts a cache slot. -/
def usableCache : Option CacheData → Bool
  | some (CacheData.payload _ articles) => articles.length > 0
  | _ => false

/-! Concrete fixtures used by witness and counterexample theorems. -/

def sampleRaw : RawArticle :=
  { title := "T", summary := "S", category := "C", sourceUrl := "U" }

def sampleArticle : Article :=
  { id := 7, title := "T", summary := "S", category := "C", sourceUrl := "U" }

def vsInit : ViewState :=
  { articles := [], loading := false, fetchingMore := false, error := none }

def vsBusy : ViewState :=
  { articles := [], loading := false, fetchingMore := true, error := none }

def decNone : String → Option (List RawArticle) := fun _ => none

def decOne : String → Option (List RawArticle) := fun _ => some [sampleRaw]

def envFailGeneric : Env :=
  { now := 900000, outcome := FetchOutcome.failure "boom", jsonDecode := decNone }

def envFail429 : Env :=
  { now := 900000, outcome := FetchOutcome.failure "got HTTP 429", jsonDecode := decNone }

def envOk : Env :=
  { now := 1000, outcome := FetchOutcome.success "[x]", jsonDecode := decOne }

def freshStore : Store := fun _ => some (CacheData.payload 900000 [sampleArticle])

def staleStore : Store := fun _ => some (CacheData.payload 0 [sampleArticle])

def emptyStore : Store := fun _ => none

def corruptStore : Store := fun _ => some CacheData.corrupt

/-! Helper lemmas shared by several claim theorems. -/

/-- When the run fails (remote rejection or parse throw), the try/catch
reduces to the catch block applied to the observed error string. -/
theorem attemptFetch_failed (isRefresh : Bool) (lang : Language) (env : Env)
    (vs : ViewState) (store : Store) (es : String)
    (hfail : envFailure env = some es) :
    attemptFetch isRefresh lang env vs store
      = catchBlock isRefresh lang es { vs with error := none } store := by
  cases ho : env.outcome with
  | failure errString =>
    have hes : errString = es := by simpa [envFailure, ho] using hfail
    subst hes
    simp [attemptFetch, ho]
  | success text =>
    cases hp : parseNewsText env.jsonDecode text with
    | ok a =>
      exfalso
      simp [envFailure, ho, hp] at hfail
    | error msg =>
      have hes : "Error: " ++ msg = es := by simpa [envFailure, ho, hp] using hfail
      subst hes
      simp [attemptFetch, ho, hp]

/-- The catch block never writes the cache store. -/
theorem catchBlock_snd (isRefresh : Bool) (lang : Language) (es : String)
    (vs : ViewState) (store : Store) :
    (catchBlock isRefresh lang es vs store).2 = store := by
  cases isRefresh with
  | false => simp [catchBlock]
  | true =>
    cases hs : store lang with
    | none => simp [catchBlock, hs]
    | some cd =>
      cases cd with
      | corrupt => simp [catchBlock, hs]
      | payload ts arts =>
        by_cases h : arts.length > 0 <;> simp [catchBlock, hs, h]

/-- C1: if the cache store holds a parseable payload for the language whose
timestamp is less than 15 minutes old and whose articles list is non-empty,
then `refresh` performs no remote query, sets the view-state articles to
exactly the cached articles, clears the error to `null`, and clears the
loading flag (and the store is left untouched). -/
theorem fetchNews_fresh_cache_short_circuit
    (lang : Language) (env : Env) (vs : ViewState) (store : Store)
    (ts : Int) (arts : List Article)
    (hstore : store lang = some (CacheData.payload ts arts))
    (hfresh : env.now - ts < CACHE_DURATION)
    (hne : arts.length > 0) :
    (fetchNews true lang env vs store).queried = false ∧
    (fetchNews true lang env vs store).vs.articles = arts ∧
    (fetchNews true lang env vs store).vs.error = none ∧
    (fetchNews true lang env vs store).vs.loading = false ∧
    (fetchNews true lang env vs store).store = store := by
  simp [fetchNews, hstore, hfresh, hne]

/-- Witness for C1 at a concrete fresh cache entry. -/
theorem fetchNews_fresh_cache_short_circuit_w :
    (fetchNews true Language.en envFailGeneric vsInit freshStore).queried = false ∧
    (fetchNews true Language.en envFailGeneric vsInit freshStore).vs.articles = [sampleArticle] ∧
    (fetchNews true Language.en envFailGeneric vsInit freshStore).vs.error = none ∧
    (fetchNews true Language.en envFailGeneric vsInit freshStore).vs.loading = false ∧
    (fetchNews true Language.en envFailGeneric vsInit freshStore).store = freshStore :=
  fetchNews_fresh_cache_short_circuit Language.en envFailGeneric vsInit freshStore
    900000 [sampleArticle] rfl (by decide) (by decide)

/-- C5: on a failed loadMore fetch (remote error or parse error alike), the
existing articles are unchanged, the cache store is not written, `loading`
is untouched, and the error is set to the short load-more message, whose
wording is rate-limit-specific iff the error string is rate-limited. -/
theorem fetchNews_loadMore_failure_frame
    (lang : Language) (env : Env) (vs : ViewState) (store : Store)
    (es : String) (hfail : envFailure env = some es) :
    (fetchNews false lang env vs store).vs.articles = vs.articles ∧
    (fetchNews false lang env vs store).store = store ∧
    (fetchNews false lang env vs store).vs.loading = vs.loading ∧
    (fetchNews false lang env vs store).vs.error
      = some (if isRateLimitError es then rateLimitLoadMoreMsg else genericLoadMoreMsg) ∧
    ((if isRateLimitError es then rateLimitLoadMoreMsg else genericLoadMoreMsg)
        = rateLimitLoadMoreMsg ↔ isRateLimitError es = true) := by
  have hmsg : ((if isRateLimitError es then rateLimitLoadMoreMsg else genericLoadMoreMsg)
      = rateLimitLoadMoreMsg ↔ isRateLimitError es = true) := by
    by_cases hrl : isRateLimitError es = true
    · simp [hrl]
    · simp only [Bool.not_eq_true] at hrl
      simp [hrl]
      decide
  cases ho : env.outcome with
  | failure errString =>
    have hes : errString = es := by simpa [envFailure, ho] using hfail
    subst hes
    refine ⟨?_, ?_, ?_, ?_, hmsg⟩ <;>
      simp [fetchNews, attemptFetch, ho, catchBlock, finallyBlock]
  | success text =>
    cases hp : parseNewsText env.jsonDecode text with
    | ok a =>
      exfalso
      simp [envFailure, ho, hp] at hfail
    | error msg =>
      have hes : "Error: " ++ msg = es := by simpa [envFailure, ho, hp] using hfail
      subst hes
      refine ⟨?_, ?_, ?_, ?_, hmsg⟩ <;>
        simp [fetchNews, attemptFetch, ho, hp, catchBlock, finallyBlock]

/-- Witness for C5 at a concrete generic failure. -/
theorem fetchNews_loadMore_failure_frame_w :
    (fetchNews false Language.en envFailGeneric vsInit staleStore).vs.articles = vsInit.articles ∧
    (fetchNews false Language.en envFailGeneric vsInit staleStore).store = staleStore ∧
    (fetchNews false Language.en envFailGeneric vsInit staleStore).vs.loading = vsInit.loading ∧
    (fetchNews false Language.en envFailGeneric vsInit staleStore).vs.error
      = some (if isRateLimitError "boom" then rateLimitLoadMoreMsg else genericLoadMoreMsg) ∧
    ((if isRateLimitError "boom" then rateLimitLoadMoreMsg else genericLoadMoreMsg)
        = rateLimitLoadMoreMsg ↔ isRateLimitError "boom" = true) :=
  fetchNews_loadMore_failure_frame Language.en envFailGeneric vsInit staleStore "boom" rfl

/-- C6: on a successful loadMore fetch, the parsed batch is appended after
the current article list, the cache payload for the language is rewritten
with exactly the combined list and `timestamp = now`, and loadMore always
issues the remote query (it is never cache-served). -/
theorem fetchNews_loadMore_success_append
    (lang : Language) (env : Env) (vs : ViewState) (store : Store)
    (raws : List RawArticle) (hok : envParsed env = some raws) :
    (fetchNews false lang env vs store).vs.articles
      = vs.articles ++ assignIds env.now raws ∧
    (fetchNews false lang env vs store).store lang
      = some (CacheData.payload env.now (vs.articles ++ assignIds env.now raws)) ∧
    (∀ env2 vs2 store2, (fetchNews false lang env2 vs2 store2).queried = true) := by
  cases ho : env.outcome with
  | failure errString =>
    exfalso
    simp [envParsed, ho] at hok
  | success text =>
    cases hp : parseNewsText env.jsonDecode text with
    | error msg =>
      exfalso
      simp [envParsed, ho, hp] at hok
    | ok a =>
      have ha : a = raws := by simpa [envParsed, ho, hp] using hok
      subst ha
      refine ⟨?_, ?_, fun env2 vs2 store2 => by simp [fetchNews]⟩ <;>
        simp [fetchNews, attemptFetch, ho, hp, successBlock, finallyBlock, cacheSet]

/-- Witness for C6 at a concrete successful parse. -/
theorem fetchNews_loadMore_success_append_w :
    (fetchNews false Language.en envOk vsInit emptyStore).vs.articles
      = vsInit.articles ++ assignIds 1000 [sampleRaw] ∧
    (fetchNews false Language.en envOk vsInit emptyStore).store Language.en
      = some (CacheData.payload 1000 (vsInit.articles ++ assignIds 1000 [sampleRaw])) ∧
    (∀ env2 vs2 store2, (fetchNews false Language.en env2 vs2 store2).queried = true) :=
  fetchNews_loadMore_success_append Language.en envOk vsInit emptyStore [sampleRaw] rfl

/-- C7: invoking loadMore while `fetchingMore` is already true is a no-op
(state unchanged, no remote query issued), and every loadMore run that
does start clears the `fetchingMore` flag when it completes, on success
and failure paths alike. -/
theorem handleLoadMore_reentrancy_guard
    (lang : Language) (env : Env) (vs : ViewState) (store : Store)
    (h : vs.fetchingMore = true) :
    (handleLoadMore lang env vs store).vs = vs ∧
    (handleLoadMore lang env vs store).store = store ∧
    (handleLoadMore lang env vs store).queried = false ∧
    (∀ env2 vs2 store2, (fetchNews false lang env2 vs2 store2).vs.fetchingMore = false) := by
  refine ⟨?_, ?_, ?_, fun env2 vs2 store2 => ?_⟩ <;>
    simp [handleLoadMore, h, fetchNews, finallyBlock]

/-- Witness for C7 with the guard flag set. -/
theorem handleLoadMore_reentrancy_guard_w :
    (handleLoadMore Language.en envFailGeneric vsBusy emptyStore).vs = vsBusy ∧
    (handleLoadMore Language.en envFailGeneric vsBusy emptyStore).store = emptyStore ∧
    (handleLoadMore Language.en envFailGeneric vsBusy emptyStore).queried = false ∧
    (∀ env2 vs2 store2, (fetchNews false Language.en env2 vs2 store2).vs.fetchingMore = false) :=
  handleLoadMore_reentrancy_guard Language.en envFailGeneric vsBusy emptyStore rfl

/-- C2: on a failed refresh fetch, a non-empty parseable cache payload
(stale or not) is adopted and the error is set to the user-facing message;
with no usable cache the articles become exactly the hardcoded 2-item
sample set with the same message; the message uses the rate-limit wording
iff the error string contains "429" or "RESOURCE_EXHAUSTED". -/
theorem fetchNews_refresh_failure_fallback
    (lang : Language) (env : Env) (vs vs2 : ViewState) (store store2 : Store)
    (es : String) (ts : Int) (arts : List Article)
    (hfail : envFailure env = some es)
    (h1 : store lang = some (CacheData.payload ts arts))
    (h2 : arts.length > 0)
    (h3 : CACHE_DURATION ≤ env.now - ts)
    (h4 : usableCache (store2 lang) = false) :
    ((fetchNews true lang env vs store).vs.articles = arts ∧
     (fetchNews true lang env vs store).vs.error = some (userMessage es)) ∧
    ((fetchNews true lang env vs2 store2).vs.articles = fallbackArticles ∧
     (fetchNews true lang env vs2 store2).vs.error = some (userMessage es)) ∧
    (userMessage es = rateLimitRefreshMsg ↔ isRateLimitError es = true) := by
  have hmsg : (userMessage es = rateLimitRefreshMsg ↔ isRateLimitError es = true) := by
    by_cases hrl : isRateLimitError es = true
    · simp [userMessage, hrl]
    · simp only [Bool.not_eq_true] at hrl
      simp [userMessage, hrl]
      decide
  have hnf : ¬ (env.now - ts < CACHE_DURATION ∧ arts.length > 0) := fun hc =>
    absurd hc.1 (not_lt.mpr h3)
  refine ⟨?_, ?_, hmsg⟩
  · have hlt : ¬ (env.now - ts < CACHE_DURATION) := not_lt.mpr h3
    have hred := attemptFetch_failed true lang env { vs with loading := true } store es hfail
    constructor <;> simp [fetchNews, h1, hnf, hlt, hred, catchBlock, h2, finallyBlock]
  · cases hs2 : store2 lang with
    | none =>
      have hred := attemptFetch_failed true lang env { vs2 with loading := true } store2 es hfail
      constructor <;> simp [fetchNews, hs2, hred, catchBlock, finallyBlock]
    | some cd =>
      cases cd with
      | corrupt =>
        have hred := attemptFetch_failed true lang env { vs2 with loading := true }
          (cacheRemove store2 lang) es hfail
        constructor <;> simp [fetchNews, hs2, hred, catchBlock, cacheRemove, finallyBlock]
      | payload ts2 arts2 =>
        have hempty : ¬ arts2.length > 0 := by
          simpa [usableCache, hs2] using h4
        have hnf2 : ¬ (env.now - ts2 < CACHE_DURATION ∧ arts2.length > 0) := fun hc =>
          absurd hc.2 hempty
        have hred := attemptFetch_failed true lang env { vs2 with loading := true } store2 es hfail
        constructor <;> simp [fetchNews, hs2, hnf2, hred, catchBlock, hempty, finallyBlock]

/-- Witness for C2: a stale usable cache adopted on a rate-limited failure,
and the hardcoded fallback with an empty store. -/
theorem fetchNews_refresh_failure_fallback_w :
    ((fetchNews true Language.en envFail429 vsInit staleStore).vs.articles = [sampleArticle] ∧
     (fetchNews true Language.en envFail429 vsInit staleStore).vs.error
        = some (userMessage "got HTTP 429")) ∧
    ((fetchNews true Language.en envFail429 vsInit emptyStore).vs.articles = fallbackArticles ∧
     (fetchNews true Language.en envFail429 vsInit emptyStore).vs.error
        = some (userMessage "got HTTP 429")) ∧
    (userMessage "got HTTP 429" = rateLimitRefreshMsg
      ↔ isRateLimitError "got HTTP 429" = true) :=
  fetchNews_refresh_failure_fallback Language.en envFail429 vsInit vsInit staleStore emptyStore
    "got HTTP 429" 0 [sampleArticle] rfl rfl (by decide) (by decide) rfl

/-- C3 counterexample: for raw text containing no bracket, the error
surfaced to the orchestrator is the "failed to parse news data" message,
not the "no JSON array found" message — the inner catch rethrows the
latter as the former. -/
theorem parse_noArray_surfaced_as_parseFail_cex :
    parseNewsText decNone "hello" = Except.error parseFailMsg ∧
    parseNewsText decNone "hello" ≠ Except.error noArrayMsg ∧
    innerParse decNone "hello" = InnerParseResult.noArrayError := by
  have h1 : parseNewsText decNone "hello" = Except.error parseFailMsg := by rfl
  refine ⟨h1, ?_, by rfl⟩
  rw [h1]
  intro h
  have h2 : parseFailMsg = noArrayMsg := by injection h
  exact absurd h2 (by decide)

/-- C3 amended: the parser locates the first bracket and the last closing
bracket; if either is absent or the closing bracket precedes the opening
one, the inner try signals the "no JSON array found" condition; otherwise
it slices that substring and JSON-decodes it, a decode failure signalling
the decode condition; every inner failure — the no-array condition as well
as a decode failure — is caught and surfaced to the caller as the single
"failed to parse news data" error, and the parser is total (it never
crashes the caller). -/
theorem parse_failure_routing (jd : String → Option (List RawArticle)) (text : String) :
    (firstIdxOf (trimChars text.data) '[' = none →
        innerParse jd text = InnerParseResult.noArrayError) ∧
    (lastIdxOf (trimChars text.data) ']' = none →
        innerParse jd text = InnerParseResult.noArrayError) ∧
    (∀ st en, firstIdxOf (trimChars text.data) '[' = some st →
        lastIdxOf (trimChars text.data) ']' = some en → en < st →
        innerParse jd text = InnerParseResult.noArrayError) ∧
    (∀ st en, firstIdxOf (trimChars text.data) '[' = some st →
        lastIdxOf (trimChars text.data) ']' = some en → ¬ en < st →
        jd (String.mk (((trimChars text.data).drop st).take (en + 1 - st))) = none →
        innerParse jd text = InnerParseResult.decodeError) ∧
    (innerParse jd text = InnerParseResult.noArrayError →
        parseNewsText jd text = Except.error parseFailMsg) ∧
    (innerParse jd text = InnerParseResult.decodeError →
        parseNewsText jd text = Except.error parseFailMsg) ∧
    (∀ raws, innerParse jd text = InnerParseResult.ok raws →
        parseNewsText jd text = Except.ok raws) := by
  refine ⟨?_, ?_, ?_, ?_, ?_, ?_, ?_⟩
  · intro h
    simp [innerParse, h]
  · intro h
    cases hf : firstIdxOf (trimChars text.data) '[' <;> simp [innerParse, hf, h]
  · intro st en h1 h2 hlt
    simp [innerParse, h1, h2, hlt]
  · intro st en h1 h2 hge hdec
    simp [innerParse, h1, h2, hge, hdec]
  · intro h
    simp [parseNewsText, h]
  · intro h
    simp [parseNewsText, h]
  · intro raws h
    simp [parseNewsText, h]

/-- Witness for the amended C3 at text with no bracket. -/
theorem parse_failure_routing_w :
    innerParse decNone "hello" = InnerParseResult.noArrayError ∧
    parseNewsText decNone "hello" = Except.error parseFailMsg := by
  have h := parse_failure_routing decNone "hello"
  exact ⟨h.1 (by decide), h.2.2.2.2.1 (h.1 (by decide))⟩

/-- C4 counterexample: a stale (15-minute-old) non-empty payload is NOT
discarded: refresh does issue the remote query, but the cache slot still
holds the stale payload afterwards, and (on a failed fetch) the stale
articles are even surfaced as the fallback. -/
theorem stale_cache_retained_cex :
    (fetchNews true Language.en envFailGeneric vsInit staleStore).queried = true ∧
    (fetchNews true Language.en envFailGeneric vsInit staleStore).store Language.en
      = some (CacheData.payload 0 [sampleArticle]) ∧
    (fetchNews true Language.en envFailGeneric vsInit staleStore).vs.articles
      = [sampleArticle] := by
  refine ⟨by decide, by decide, by decide⟩

/-- C4 amended: a cache payload at least 15 minutes old or with an empty
articles list is treated as absent for serving purposes and a remote query
is issued; the payload itself is not removed (on a failed fetch the store
is exactly unchanged); only a corrupt, unparseable entry is removed, during
the pre-fetch cache read. -/
theorem stale_cache_treated_absent
    (lang : Language) (env : Env) (vs : ViewState) (store : Store)
    (ts : Int) (arts : List Article) (es : String)
    (h1 : store lang = some (CacheData.payload ts arts))
    (h2 : CACHE_DURATION ≤ env.now - ts ∨ arts.length = 0)
    (hfail : envFailure env = some es) :
    (fetchNews true lang env vs store).queried = true ∧
    (fetchNews true lang env vs store).store = store ∧
    (∀ store2 : Store, store2 lang = some CacheData.corrupt →
        (fetchNews true lang env vs store2).store = cacheRemove store2 lang) := by
  have hnf : ¬ (env.now - ts < CACHE_DURATION ∧ arts.length > 0) := by
    rcases h2 with h2 | h2
    · exact fun hc => absurd hc.1 (not_lt.mpr h2)
    · exact fun hc => by omega
  have hred := attemptFetch_failed true lang env { vs with loading := true } store es hfail
  refine ⟨?_, ?_, ?_⟩
  · simp [fetchNews, h1, hnf]
  · simp [fetchNews, h1, hnf, hred, catchBlock_snd]
  · intro store2 hs2
    have hred2 := attemptFetch_failed true lang env { vs with loading := true }
      (cacheRemove store2 lang) es hfail
    simp [fetchNews, hs2, hred2, catchBlock_snd]

/-- Witness for the amended C4 at a concrete stale payload and a concrete
corrupt entry. -/
theorem stale_cache_treated_absent_w :
    (fetchNews true Language.en envFailGeneric vsInit staleStore).queried = true ∧
    (fetchNews true Language.en envFailGeneric vsInit staleStore).store = staleStore ∧
    (fetchNews true Language.en envFailGeneric vsInit corruptStore).store
      = cacheRemove corruptStore Language.en := by
  have h := stale_cache_treated_absent Language.en envFailGeneric vsInit staleStore
    0 [sampleArticle] "boom" rfl (Or.inl (by decide)) rfl
  exact ⟨h.1, h.2.1, h.2.2 corruptStore rfl⟩

/-- The closed set of user-facing error values the component can hold. -/
def errorSet (e : Option String) : Prop :=
  e = none ∨ e = some genericRefreshMsg ∨ e = some rateLimitRefreshMsg ∨
  e = some rateLimitLoadMoreMsg ∨ e = some genericLoadMoreMsg

theorem userMessage_cases (es : String) :
    userMessage es = genericRefreshMsg ∨ userMessage es = rateLimitRefreshMsg := by
  unfold userMessage
  split
  · right; rfl
  · left; rfl

theorem catchBlock_error_in (isRefresh : Bool) (lang : Language) (es : String)
    (vs : ViewState) (store : Store) :
    errorSet ((catchBlock isRefresh lang es vs store).1.error) := by
  cases isRefresh with
  | false =>
    by_cases h : isRateLimitError es = true <;>
      simp [catchBlock, errorSet, h]
  | true =>
    rcases userMessage_cases es with hu | hu <;>
    · cases hs : store lang with
      | none => simp [catchBlock, hs, errorSet, hu]
      | some cd =>
        cases cd with
        | corrupt => simp [catchBlock, hs, errorSet, hu]
        | payload ts arts =>
          by_cases h : arts.length > 0 <;> simp [catchBlock, hs, h, errorSet, hu]

theorem successBlock_error (isRefresh : Bool) (lang : Language) (now : Int)
    (raws : List RawArticle) (vs : ViewState) (store : Store) :
    (successBlock isRefresh lang now raws vs store).1.error = vs.error := by
  cases isRefresh <;> simp [successBlock]

theorem finallyBlock_error (isRefresh : Bool) (vs : ViewState) :
    (finallyBlock isRefresh vs).error = vs.error := by
  cases isRefresh <;> simp [finallyBlock]

theorem attemptFetch_error_in (isRefresh : Bool) (lang : Language) (env : Env)
    (vs : ViewState) (store : Store) :
    errorSet ((attemptFetch isRefresh lang env vs store).1.error) := by
  cases ho : env.outcome with
  | failure es =>
    simpa [attemptFetch, ho] using
      catchBlock_error_in isRefresh lang es { vs with error := none } store
  | success text =>
    cases hp : parseNewsText env.jsonDecode text with
    | ok raws =>
      exact Or.inl (by simp [attemptFetch, ho, hp, successBlock_error])
    | error msg =>
      simpa [attemptFetch, ho, hp] using
        catchBlock_error_in isRefresh lang ("Error: " ++ msg) { vs with error := none } store

/-- C8: for every input and every error kind (cache read error, remote
query error, parse error), refresh and loadMore absorb all failures: the
resulting error field is always `none` or one of the four fixed
user-facing strings, and the result state is a total function of the
inputs (no exception escapes). -/
theorem fetchNews_error_absorbed (isRefresh : Bool) (lang : Language) (env : Env)
    (vs : ViewState) (store : Store) :
    errorSet ((fetchNews isRefresh lang env vs store).vs.error) := by
  cases isRefresh with
  | false =>
    simpa [errorSet, fetchNews, finallyBlock_error] using
      attemptFetch_error_in false lang env { vs with fetchingMore := true } store
  | true =>
    cases hs : store lang with
    | none =>
      simpa [errorSet, fetchNews, hs, finallyBlock_error] using
        attemptFetch_error_in true lang env { vs with loading := true } store
    | some cd =>
      cases cd with
      | corrupt =>
        simpa [errorSet, fetchNews, hs, finallyBlock_error] using
          attemptFetch_error_in true lang env { vs with loading := true } (cacheRemove store lang)
      | payload ts arts =>
        by_cases h : env.now - ts < CACHE_DURATION ∧ arts.length > 0
        · exact Or.inl (by simp [fetchNews, hs, h])
        · simpa [errorSet, fetchNews, hs, h, finallyBlock_error] using
            attemptFetch_error_in true lang env { vs with loading := true } store

theorem assignIds_length (now : Int) (raws : List RawArticle) :
    (assignIds now raws).length = raws.length := by
  simp [assignIds]

theorem assignIds_getElem? (now : Int) (raws : List RawArticle) (i : Nat) :
    (assignIds now raws)[i]? = (raws[i]?).map (fun r =>
      ({ id := now + i, title := r.title, summary := r.summary,
         category := r.category, sourceUrl := r.sourceUrl } : Article)) := by
  by_cases h : i < raws.length
  · have h2 : i < (assignIds now raws).length := by
      rw [assignIds_length]
      exact h
    rw [List.getElem?_eq_getElem h, List.getElem?_eq_getElem h2]
    simp only [Option.map_some', Option.some.injEq]
    show (assignIds now raws).get ⟨i, h2⟩ = _
    exact List.get_mapIdx raws _ i h
  · have h2 : ¬ i < (assignIds now raws).length := by
      rw [assignIds_length]
      exact h
    rw [List.getElem?_eq_none (le_of_not_lt h), List.getElem?_eq_none (le_of_not_lt h2)]
    rfl

/-- C9: each record of a successfully parsed batch is assigned the numeric
synthetic id `now + index`; ids are pairwise distinct within the batch;
the four content fields are preserved verbatim from the decoded record. -/
theorem assignIds_id_and_fields (now : Int) (raws : List RawArticle) (i j : Nat)
    (hi : i < raws.length) (hj : j < raws.length) (hij : i ≠ j) :
    (assignIds now raws).length = raws.length ∧
    (∃ r a, raws[i]? = some r ∧ (assignIds now raws)[i]? = some a ∧
        a.id = now + i ∧ a.title = r.title ∧ a.summary = r.summary ∧
        a.category = r.category ∧ a.sourceUrl = r.sourceUrl) ∧
    (∀ a b, (assignIds now raws)[i]? = some a → (assignIds now raws)[j]? = some b →
        a.id ≠ b.id) := by
  have h1 : raws[i]? = some (raws.get ⟨i, hi⟩) := by
    rw [List.getElem?_eq_getElem hi]
    rfl
  have h1j : raws[j]? = some (raws.get ⟨j, hj⟩) := by
    rw [List.getElem?_eq_getElem hj]
    rfl
  refine ⟨assignIds_length now raws, ?_, ?_⟩
  · refine ⟨raws.get ⟨i, hi⟩,
      { id := now + i, title := (raws.get ⟨i, hi⟩).title,
        summary := (raws.get ⟨i, hi⟩).summary,
        category := (raws.get ⟨i, hi⟩).category,
        sourceUrl := (raws.get ⟨i, hi⟩).sourceUrl },
      h1, ?_, rfl, rfl, rfl, rfl, rfl⟩
    rw [assignIds_getElem?, h1]
    rfl
  · intro a b ha hb
    rw [assignIds_getElem?, h1] at ha
    rw [assignIds_getElem?, h1j] at hb
    simp only [Option.map_some', Option.some.injEq] at ha hb
    rw [← ha, ← hb]
    simp only [ne_eq, add_right_inj]
    intro hc
    exact hij (by exact_mod_cast hc)

/-- Witness for C9 at a concrete two-element batch. -/
theorem assignIds_id_and_fields_w :
    (assignIds 100 [sampleRaw, sampleRaw]).length = ([sampleRaw, sampleRaw] : List RawArticle).length ∧
    (∃ r a, ([sampleRaw, sampleRaw] : List RawArticle)[0]? = some r ∧
        (assignIds 100 [sampleRaw, sampleRaw])[0]? = some a ∧
        a.id = 100 + 0 ∧ a.title = r.title ∧ a.summary = r.summary ∧
        a.category = r.category ∧ a.sourceUrl = r.sourceUrl) ∧
    (∀ a b, (assignIds 100 [sampleRaw, sampleRaw])[0]? = some a →
        (assignIds 100 [sampleRaw, sampleRaw])[1]? = some b → a.id ≠ b.id) :=
  assignIds_id_and_fields 100 [sampleRaw, sampleRaw] 0 1 (by decide) (by decide) (by decide)

/-- C10: a refresh served from fresh cache leaves the cache slot unchanged
(its timestamp is not renewed); a failed refresh never writes the store —
a corrupt entry is removed during the pre-fetch read and any other slot
content (including a stale payload whose articles were adopted) is left
exactly as it was; a failed load-more never touches the store. -/
theorem cache_write_frame
    (lang : Language) (env env2 : Env) (vs : ViewState)
    (storeA storeB storeC storeD : Store) (es : String)
    (ts : Int) (arts : List Article)
    (hfail : envFailure env = some es)
    (hA : storeA lang = some (CacheData.payload ts arts))
    (hA2 : env2.now - ts < CACHE_DURATION) (hA3 : arts.length > 0)
    (hB : storeB lang = some CacheData.corrupt)
    (hC : storeC lang ≠ some CacheData.corrupt) :
    (fetchNews true lang env2 vs storeA).store = storeA ∧
    (fetchNews true lang env vs storeB).store = cacheRemove storeB lang ∧
    (fetchNews true lang env vs storeC).store = storeC ∧
    (fetchNews false lang env vs storeD).store = storeD := by
  refine ⟨?_, ?_, ?_, ?_⟩
  · simp [fetchNews, hA, hA2, hA3]
  · have hred := attemptFetch_failed true lang env { vs with loading := true }
      (cacheRemove storeB lang) es hfail
    simp [fetchNews, hB, hred, catchBlock_snd]
  · cases hs : storeC lang with
    | none =>
      have hred := attemptFetch_failed true lang env { vs with loading := true } storeC es hfail
      simp [fetchNews, hs, hred, catchBlock_snd]
    | some cd =>
      cases cd with
      | corrupt => exact absurd hs hC
      | payload ts2 arts2 =>
        by_cases h : env.now - ts2 < CACHE_DURATION ∧ arts2.length > 0
        · simp [fetchNews, hs, h]
        · have hred := attemptFetch_failed true lang env { vs with loading := true } storeC es hfail
          simp [fetchNews, hs, h, hred, catchBlock_snd]
  · have hred := attemptFetch_failed false lang env { vs with fetchingMore := true } storeD es hfail
    simp [fetchNews, hred, catchBlock_snd]

/-- Witness for C10 with a fresh store, a corrupt store, a stale store and
an empty store, under a concrete failed fetch. -/
theorem cache_write_frame_w :
    (fetchNews true Language.en envFailGeneric vsInit freshStore).store = freshStore ∧
    (fetchNews true Language.en envFailGeneric vsInit corruptStore).store
      = cacheRemove corruptStore Language.en ∧
    (fetchNews true Language.en envFailGeneric vsInit staleStore).store = staleStore ∧
    (fetchNews false Language.en envFailGeneric vsInit emptyStore).store = emptyStore :=
  cache_write_frame Language.en envFailGeneric envFailGeneric vsInit
    freshStore corruptStore staleStore emptyStore "boom" 900000 [sampleArticle]
    rfl rfl (by decide) (by decide) rfl (by decide)

end NewsFeed
